import Mathlib

/-
  Verification development for the K2Rebuild firmware pipeline.

  Shallow embedding of:
  - tools/orchestrator.py   (stage list, checkpoint read, resume index)
  - tools/checkpoint.py     (get_checkpoint, stage_done, _write_json)
  - tools/detect_rootfs.py  (write_checkpoint)
  - tools/qemu_test.py      (save_checkpoint, main exit policy)
  - tools/firmware_validator.py (Mounts, RootFSValidator.run_all)
  - tools/generate_fw.py    (try_extract_rootfs)
-/

-- ==========================================================================
-- Python string membership: `needle in hay` (substring test)
-- ==========================================================================

def pyInAux (needle : List Char) : List Char → Bool
  | [] => needle.isEmpty
  | c :: rest => needle.isPrefixOf (c :: rest) || pyInAux needle rest

def pyIn (needle hay : String) : Bool :=
  pyInAux needle.toList hay.toList

-- ==========================================================================
-- tools/orchestrator.py, main (build mode), lines 95-112
-- ==========================================================================

/-- The ordered pipeline stage list of orchestrator.main (lines 95-101). -/
def buildStages : List String :=
  ["detect_rootfs", "unsquash", "inject_upstream", "repack_fw", "validate_fw"]

/-- Resume index computation of orchestrator.main (lines 103-108):
    start_idx = 0; if stage != "none": first i with `stage in s` gives i+1. -/
def startIdx (stage : String) : Nat :=
  if stage == "none" then 0
  else
    match buildStages.findIdx? (fun s => pyIn stage s) with
    | some i => i + 1
    | none => 0

/-- The stages a fresh build run executes given the checkpoint stage string
    (orchestrator.main line 110: `for s in stages[start_idx:]`). -/
def executedStages (stage : String) : List String :=
  buildStages.drop (startIdx stage)

-- ==========================================================================
-- Checkpoint file data model (shared by checkpoint.py / orchestrator.py /
-- detect_rootfs.py / qemu_test.py).  The persisted JSON object has keys
-- "stage", "ts", "meta"; meta is a string-keyed insertion-ordered dict.
-- ==========================================================================

/-- Persisted checkpoint object.  An absent or unparsable file is `none`
    at the call sites (checkpoint.py _read_json returns {} on failure). -/
structure CPFile where
  stage : String
  ts : Option String
  meta : Option (List (String × String))
  deriving DecidableEq

-- Python dict primitives on insertion-ordered association lists.

/-- d[k] = v : replace the first binding of k in place, else append. -/
def dictSet (d : List (String × String)) (k v : String) : List (String × String) :=
  match d with
  | [] => [(k, v)]
  | (k', v') :: rest => if k' == k then (k, v) :: rest else (k', v') :: dictSet rest k v

/-- d.update(patch) : left-to-right assignment of every binding of patch. -/
def dictUpdate (d patch : List (String × String)) : List (String × String) :=
  patch.foldl (fun acc kv => dictSet acc kv.1 kv.2) d

/-- d.get(k) : first binding of k. -/
def dictGet (d : List (String × String)) (k : String) : Option String :=
  match d with
  | [] => none
  | (k', v) :: rest => if k' == k then some v else dictGet rest k

/-- Lookup in the checkpoint's meta dict (absent meta = empty mapping). -/
def metaGet (c : CPFile) (k : String) : Option String :=
  match c.meta with
  | none => none
  | some d => dictGet d k

-- ==========================================================================
-- tools/checkpoint.py
-- ==========================================================================

/-- checkpoint.py get_checkpoint (lines 26-31): read the file ({} on absence
    or parse failure) and default the stage to "none". -/
def get_checkpoint (file : Option CPFile) : CPFile :=
  match file with
  | none => { stage := "none", ts := none, meta := none }
  | some d => d

/-- checkpoint.py stage_done (lines 33-39): set data["stage"], and when
    kwargs is nonempty merge kwargs into data.setdefault("meta", {}).
    Returns the object persisted by _write_json. -/
def stage_done (file : Option CPFile) (stage : String)
    (kwargs : List (String × String)) : CPFile :=
  let data := get_checkpoint file
  let data := { data with stage := stage }
  if kwargs.isEmpty then data
  else { data with meta := some (dictUpdate (data.meta.getD []) kwargs) }

-- ==========================================================================
-- tools/orchestrator.py checkpoint (lines 20-23) and
-- tools/detect_rootfs.py write_checkpoint (lines 17-18):
-- both serialize a fresh {"stage": ..., "ts": ...} object and replace the
-- whole checkpoint file with it, independent of the previous content.
-- ==========================================================================

/-- orchestrator.py checkpoint(stage): CHECKPOINT.write_text of the fresh
    two-key object {"stage": stage, "ts": now}. -/
def orchWriteCheckpoint (_prev : Option CPFile) (stage ts : String) : CPFile :=
  { stage := stage, ts := some ts, meta := none }

/-- detect_rootfs.py write_checkpoint(stage): CHECKPOINT.write_text of the
    fresh two-key object {"stage": stage, "ts": now}. -/
def detectWriteCheckpoint (_prev : Option CPFile) (stage ts : String) : CPFile :=
  { stage := stage, ts := some ts, meta := none }

-- ==========================================================================
-- File-system write protocols of the three checkpoint writers (claim C2).
-- A writer is abstracted to the trace of file-system operations it performs.
-- ==========================================================================

/-- A file-system operation: an in-place file write, or a rename. -/
inductive FsOp where
  | writeFile (path : String)
  | rename (src dst : String)
  deriving DecidableEq

/-- The checkpoint path (orchestrator.py line 12, checkpoint.py line 8,
    qemu_test.py line 41 — all /repo/output/checkpoint.json by default). -/
def cpPath : String := "/repo/output/checkpoint.json"

/-- checkpoint.py _write_json (lines 20-24): write path + ".tmp", then
    os.replace(tmp, path). -/
def writeJsonTrace (path : String) : List FsOp :=
  [FsOp.writeFile (path ++ ".tmp"), FsOp.rename (path ++ ".tmp") path]

/-- orchestrator.py checkpoint (lines 20-23): a direct
    CHECKPOINT.write_text — one in-place write, no temporary, no rename. -/
def orchCheckpointTrace : List FsOp :=
  [FsOp.writeFile cpPath]

/-- qemu_test.py save_checkpoint (lines 53-68): open(CHECKPOINT_JSON, "w")
    with a direct json.dump, then an append to progress.json — no
    temporary, no rename. -/
def qemuSaveCheckpointTrace : List FsOp :=
  [FsOp.writeFile cpPath, FsOp.writeFile "/repo/output/progress.json"]

/-- Does the trace ever write the target path in place? -/
def writesDirectly (tr : List FsOp) (target : String) : Bool :=
  tr.any (fun op =>
    match op with
    | .writeFile p => p == target
    | .rename _ _ => false)

/-- Does the trace rename some file into the target path? -/
def renamesInto (tr : List FsOp) (target : String) : Bool :=
  tr.any (fun op =>
    match op with
    | .writeFile _ => false
    | .rename _ d => d == target)

/-- Every rename's source was fully written earlier in the trace. -/
def renameSourcesPrepared : List FsOp → List String → Bool
  | [], _ => true
  | .writeFile p :: rest, ws => renameSourcesPrepared rest (p :: ws)
  | .rename s _ :: rest, ws => ws.contains s && renameSourcesPrepared rest ws

/-- A writer updates the target atomically: it never writes the target in
    place, it renames a previously fully-written sibling file into place. -/
def atomicReplaceWriter (tr : List FsOp) (target : String) : Bool :=
  !writesDirectly tr target && renamesInto tr target && renameSourcesPrepared tr []

/-- The three checkpoint writers of the pipeline named by claim C2. -/
def checkpointWriterTraces : List (List FsOp) :=
  [writeJsonTrace cpPath, orchCheckpointTrace, qemuSaveCheckpointTrace]

-- ==========================================================================
-- tools/firmware_validator.py : Mounts (lines 67-96) and
-- RootFSValidator.run_all (lines 253-268)
-- ==========================================================================

/-- An observable event of a validator run: a successful mount acquisition,
    a probe invocation, or a teardown unmount. -/
inductive VEvent where
  | mnt (target : String)
  | umnt (target : String)
  | probe (name : String)
  deriving DecidableEq

/-- The four mount targets attempted by Mounts.setup (lines 86-89), in
    order: proc, sys, dev, dev/pts (each the last element of its command). -/
def mountTargets : List String :=
  ["proc", "sys", "dev", "dev/pts"]

/-- Mounts._mount appends the command to self.did exactly when its rc is 0
    (lines 72-75); after setup, did holds the successful mounts in
    acquisition order.  ok gives each attempt's success. -/
def setupDid (ok : List Bool) : List String :=
  ((mountTargets.zip ok).filter (fun p => p.2)).map (fun p => p.1)

/-- Mounts.teardown (lines 91-96): unmount every recorded mount in reverse
    order, then reset did to []. -/
def teardownEvents (did : List String) : List VEvent :=
  did.reverse.map VEvent.umnt

/-- The eleven probes invoked by run_all (lines 256-266), in order. -/
def probeNames : List String :=
  ["structure", "diskspace", "python_runtime", "services_presence",
   "nginx_syntax", "moonraker_config", "klipper_presence", "network",
   "apt", "elf_deps", "kernel_modules_dir"]

/-- Sequential probe execution: run_all invokes the probes one after the
    other with no per-probe exception handler, so the first probe that
    raises ends the sequence and the exception escapes.  Returns the probes
    that were invoked and whether an exception escaped. -/
def runProbeSeq (raises : String → Bool) : List String → List String × Bool
  | [] => ([], false)
  | n :: ns =>
    if raises n then ([n], true)
    else
      let r := runProbeSeq raises ns
      (n :: r.1, r.2)

/-- Result of one RootFSValidator.run_all: the event trace, whether a probe
    exception escaped run_all, and the final Mounts.did list. -/
structure VRun where
  events : List VEvent
  escaped : Bool
  did : List String
  deriving DecidableEq

/-- RootFSValidator.run_all (lines 253-268): setup, then the probe battery
    inside a try whose finally always runs Mounts.teardown.  ok gives the
    outcome of each mount attempt, raises tells which probes raise. -/
def runAll (ok : List Bool) (raises : String → Bool) : VRun :=
  let did := setupDid ok
  let pr := runProbeSeq raises probeNames
  { events := did.map VEvent.mnt ++ pr.1.map VEvent.probe ++ teardownEvents did
  , escaped := pr.2
  , did := [] }

/-- The unmount targets of an event trace, in order. -/
def umountTargets : List VEvent → List String
  | [] => []
  | .umnt t :: rest => t :: umountTargets rest
  | _ :: rest => umountTargets rest

/-- The invoked probes of an event trace, in order. -/
def probeTargets : List VEvent → List String
  | [] => []
  | .probe n :: rest => n :: probeTargets rest
  | _ :: rest => probeTargets rest

-- ==========================================================================
-- tools/qemu_test.py main (lines 200-271): process exit code policy
-- ==========================================================================

/-- Outcome of run_qemu (lines 131-197) as reported in its status field. -/
inductive QStatus where
  | passed | failed | failedNoOutput | error
  deriving DecidableEq

/-- The environment main consults: QEMU_TEST_ENABLE, QEMU_TEST_STRICT,
    discovery of the emulator binary and the kernel image, and the
    emulation outcome when it runs. -/
structure QEnv where
  enable : Bool
  strict : Bool
  qemuBinFound : Bool
  kernelFound : Bool
  runStatus : QStatus
  deriving DecidableEq

/-- qemu_test.py main (lines 200-271) as its returned exit code:
    disabled → 0 (line 213-216, unconditional);
    no emulator → 0 if not strict else 2 (lines 218-221);
    no kernel → 0 if not strict else 2 (lines 223-227);
    passed → 0 (lines 263-265); otherwise 2 when strict, else 0
    (lines 268-271). -/
def qemuTestMain (e : QEnv) : Nat :=
  if !e.enable then 0
  else if !e.qemuBinFound then (if e.strict then 2 else 0)
  else if !e.kernelFound then (if e.strict then 2 else 0)
  else
    match e.runStatus with
    | .passed => 0
    | _ => if e.strict then 2 else 0

-- ==========================================================================
-- tools/generate_fw.py try_extract_rootfs (lines 64-159)
-- ==========================================================================

/-- Python str.lower(), character by character (String.toLower itself is
    defined by well-founded recursion and does not reduce in the kernel). -/
def pyLower (s : String) : String :=
  String.mk (s.toList.map Char.toLower)

/-- The verdict of the elif chain over the `file -b` output string
    (lines 130-156), in source order. -/
inductive FtVerdict where
  | squashfs | ext4fs | cpioArc | compressed | unrecognized
  deriving DecidableEq

/-- Classification of the rootfs sub-region from its `file -b` output
    (lines 130, 136, 144, 150): "Squashfs" in file_type, then "ext4",
    "cpio", and the zstd/lz4/xz family on the lowercased text. -/
def classifyFileType (fileTypeOut : String) : FtVerdict :=
  if pyIn "Squashfs" fileTypeOut then .squashfs
  else if pyIn "ext4" (pyLower fileTypeOut) then .ext4fs
  else if pyIn "cpio" (pyLower fileTypeOut) then .cpioArc
  else if pyIn "zstd" (pyLower fileTypeOut) || pyIn "lz4" (pyLower fileTypeOut)
          || pyIn "xz" (pyLower fileTypeOut) then .compressed
  else .unrecognized

/-- Environment of one try_extract_rootfs call: the observable results of
    every external command it may run.  decRecursiveUsable is consulted by
    no source branch; it exists only for the spec-side model of claim C5
    (whether re-classifying the decompressed stream and recursing once
    would yield a usable rootfs tree). -/
structure ExtractEnv where
  unsquashRc : Int
  permWarnInStderr : Bool
  createdFilesInStdout : Bool
  binwalkRaises : Bool
  binwalkOffset : Option Nat
  cpioPassRaises : Bool
  cpioRootfsExists : Bool
  ddRaises : Bool
  fileTypeOut : String
  nestedUnsquashRc : Int
  guestmountRc : Int
  cpioUnpackRc : Int
  decExists : Bool
  decRecursiveUsable : Bool
  deriving DecidableEq

/-- The dispatch on the inspected file type (lines 127-159): squashfs →
    nested unsquashfs rc decides (line 134); ext4 → guestmount is run and
    True is returned with its rc (guestmountRc) unread (lines 136-142);
    cpio → the unpack shell command is run and True is returned with its rc
    (cpioUnpackRc) unread (lines 144-148); compressed → the decompression
    pipeline is run and True is returned iff rootfs_file.dec exists
    (lines 150-156); anything else falls to `return False` (lines 158-159). -/
def inspectDispatch (e : ExtractEnv) : Bool :=
  match classifyFileType e.fileTypeOut with
  | .squashfs => e.nestedUnsquashRc == 0
  | .ext4fs => true
  | .cpioArc => true
  | .compressed => e.decExists
  | .unrecognized => false

/-- Phases of a try_extract_rootfs call, for stating which steps ran. -/
inductive Phase where
  | primaryExtract | signatureScan | cpioFallback | byteRangeCopy | inspect
  deriving DecidableEq

/-- The fallback after a failed primary extraction (lines 82-159): binwalk
    signature scan (an exception yields bw_out = "" hence no offset,
    lines 83-87); with no offset, the concatenated-CPIO attempt whose
    try/except returns False on an exception and returns False when
    cpio-root/rootfs is absent (lines 98-115); with an offset, the dd
    byte-range copy whose try/except returns False on an exception
    (lines 117-124); then the file-type inspection and dispatch. -/
def fallbackExtractT (e : ExtractEnv) : Bool × List Phase :=
  match (if e.binwalkRaises then none else e.binwalkOffset) with
  | none =>
    if e.cpioPassRaises then (false, [Phase.signatureScan, Phase.cpioFallback])
    else if e.cpioRootfsExists then
      (inspectDispatch e, [Phase.signatureScan, Phase.cpioFallback, Phase.inspect])
    else (false, [Phase.signatureScan, Phase.cpioFallback])
  | some _ =>
    if e.ddRaises then (false, [Phase.signatureScan, Phase.byteRangeCopy])
    else (inspectDispatch e, [Phase.signatureScan, Phase.byteRangeCopy, Phase.inspect])

/-- try_extract_rootfs (lines 64-159) with its phase trace: the primary
    unsquashfs returning 0 is a pass (lines 73-75); a nonzero rc whose
    stderr holds "Operation not permitted" while stdout matches
    created-N-files is also a pass (lines 77-79); anything else falls
    through to the signature-scan fallback (line 82 onward). -/
def tryExtractRootfsT (e : ExtractEnv) : Bool × List Phase :=
  if e.unsquashRc == 0 then (true, [Phase.primaryExtract])
  else if e.permWarnInStderr && e.createdFilesInStdout then (true, [Phase.primaryExtract])
  else
    let r := fallbackExtractT e
    (r.1, Phase.primaryExtract :: r.2)

/-- The boolean returned by try_extract_rootfs. -/
def tryExtractRootfs (e : ExtractEnv) : Bool :=
  (tryExtractRootfsT e).1

/-- The primary-pass condition as evaluated top-down by the source
    (reaching line 77 means the rc was nonzero). -/
def primaryPass (e : ExtractEnv) : Bool :=
  (e.unsquashRc == 0) || (e.permWarnInStderr && e.createdFilesInStdout)

/-- Whether the fallback reaches the file-type inspection of line 127. -/
def reachesInspect (e : ExtractEnv) : Bool :=
  match (if e.binwalkRaises then none else e.binwalkOffset) with
  | none => !e.cpioPassRaises && e.cpioRootfsExists
  | some _ => !e.ddRaises

/-- Modelled from the spec: the classifier primary-pass dual condition in
    the spec's words — a zero exit code, OR a nonzero exit code whose
    diagnostic text simultaneously reports a permission-class warning AND a
    files-created success marker. -/
def primaryPassSpec (e : ExtractEnv) : Bool :=
  (e.unsquashRc == 0)
    || ((e.unsquashRc != 0) && (e.permWarnInStderr && e.createdFilesInStdout))

/-- Modelled from the spec: the compressed branch the spec describes —
    decompress to a scratch file, then re-classify the decompressed result
    and recurse once, so the branch succeeds only if the decompressed
    stream recursively yields a usable rootfs tree. -/
def compressedBranchSpec (e : ExtractEnv) : Bool :=
  e.decExists && e.decRecursiveUsable

-- ==========================================================================
-- Supporting lemmas: event-trace projections
-- ==========================================================================

theorem umountTargets_append (a b : List VEvent) :
    umountTargets (a ++ b) = umountTargets a ++ umountTargets b := by
  induction a with
  | nil => rfl
  | cons e rest ih => cases e <;> simp [umountTargets, ih]

theorem umountTargets_map_mnt (l : List String) :
    umountTargets (l.map VEvent.mnt) = [] := by
  induction l with
  | nil => rfl
  | cons x rest ih => simpa [umountTargets] using ih

theorem umountTargets_map_probe (l : List String) :
    umountTargets (l.map VEvent.probe) = [] := by
  induction l with
  | nil => rfl
  | cons x rest ih => simpa [umountTargets] using ih

theorem umountTargets_map_umnt (l : List String) :
    umountTargets (l.map VEvent.umnt) = l := by
  induction l with
  | nil => rfl
  | cons x rest ih => simp [umountTargets, ih]

theorem probeTargets_append (a b : List VEvent) :
    probeTargets (a ++ b) = probeTargets a ++ probeTargets b := by
  induction a with
  | nil => rfl
  | cons e rest ih => cases e <;> simp [probeTargets, ih]

theorem probeTargets_map_mnt (l : List String) :
    probeTargets (l.map VEvent.mnt) = [] := by
  induction l with
  | nil => rfl
  | cons x rest ih => simpa [probeTargets] using ih

theorem probeTargets_map_umnt (l : List String) :
    probeTargets (l.map VEvent.umnt) = [] := by
  induction l with
  | nil => rfl
  | cons x rest ih => simpa [probeTargets] using ih

theorem probeTargets_map_probe (l : List String) :
    probeTargets (l.map VEvent.probe) = l := by
  induction l with
  | nil => rfl
  | cons x rest ih => simp [probeTargets, ih]

theorem umountTargets_reverse_map_umnt (l : List String) :
    umountTargets ((l.map VEvent.umnt).reverse) = l.reverse := by
  rw [← List.map_reverse]; exact umountTargets_map_umnt _

theorem probeTargets_reverse_map_umnt (l : List String) :
    probeTargets ((l.map VEvent.umnt).reverse) = [] := by
  rw [← List.map_reverse]; exact probeTargets_map_umnt _

theorem probeTargets_take_map_probe (n : Nat) (l : List String) :
    probeTargets (List.take n (l.map VEvent.probe)) = List.take n l := by
  rw [← List.map_take]; exact probeTargets_map_probe _

theorem probeTargets_takeWhile_map_probe (p : String → Bool) (l : List String) :
    probeTargets (List.takeWhile (fun e => match e with | VEvent.probe n => p n | _ => false)
      (l.map VEvent.probe)) = List.takeWhile p l := by
  induction l with
  | nil => rfl
  | cons x rest ih => cases h : p x <;> simp [List.takeWhile_cons, h, probeTargets, ih]

theorem runProbeSeq_spec (raises : String → Bool) (ns : List String) :
    (runProbeSeq raises ns).1
      = ns.takeWhile (fun n => !raises n) ++ (ns.dropWhile (fun n => !raises n)).take 1
    ∧ (runProbeSeq raises ns).2 = ns.any raises := by
  induction ns with
  | nil => simp [runProbeSeq]
  | cons n rest ih =>
    cases h : raises n <;>
      simp [runProbeSeq, h, List.takeWhile_cons, List.dropWhile_cons, ih.1, ih.2]

-- ==========================================================================
-- Claim theorems
-- ==========================================================================

/-- C1: evaluation of the orchestrator's resume computation at the
    checkpoint stage "inject_upstream_complete".  The source's match test
    is `stage in s` — the checkpoint string as a substring of the stage
    identifier — so the suffix-decorated name matches no stage: the resume
    index is 0 and a fresh build run re-executes all five stages instead of
    resuming at repack_fw as the claim (and the spec's scenario B) states. -/
theorem orchestrator_resume_inject_upstream_eval :
    startIdx "inject_upstream_complete" = 0
    ∧ executedStages "inject_upstream_complete" = buildStages
    ∧ executedStages "inject_upstream_complete" ≠ ["repack_fw", "validate_fw"] := by
  decide

/-- C2 counterexample: it is not the case that every checkpoint writer of
    the pipeline follows the write-temp-then-rename protocol — the
    orchestrator's checkpoint helper and the smoke-test's save_checkpoint
    write the checkpoint file in place. -/
theorem checkpoint_writers_not_all_atomic :
    ¬ (checkpointWriterTraces.all (fun tr => atomicReplaceWriter tr cpPath) = true) := by
  decide

/-- C2 amended: of the three checkpoint writers, exactly the checkpoint
    store's _write_json writes a sibling temporary file and renames it into
    place; the orchestrator's per-stage checkpoint update and the boot
    smoke-test's save_checkpoint write the checkpoint file directly. -/
theorem checkpoint_writer_atomicity_split :
    atomicReplaceWriter (writeJsonTrace cpPath) cpPath = true
    ∧ atomicReplaceWriter orchCheckpointTrace cpPath = false
    ∧ atomicReplaceWriter qemuSaveCheckpointTrace cpPath = false := by
  decide

/-- C3: for every run of RootFSValidator.run_all — whatever the mount
    outcomes and whichever probe (if any) raises — the teardown unmounts
    exactly the mounts whose setup command succeeded, in strict reverse
    order of acquisition, their number equals the number of successful
    setups, and the acquired-mounts list is empty when the run ends. -/
theorem validation_mount_symmetry (ok : List Bool) (raises : String → Bool) :
    umountTargets (runAll ok raises).events = (setupDid ok).reverse
    ∧ (umountTargets (runAll ok raises).events).length = (setupDid ok).length
    ∧ (runAll ok raises).did = [] := by
  refine ⟨?_, ?_, rfl⟩
  · simp [runAll, teardownEvents, umountTargets_append, umountTargets_map_mnt,
          umountTargets_map_probe, umountTargets_map_umnt, umountTargets_reverse_map_umnt]
  · simp [runAll, teardownEvents, umountTargets_append, umountTargets_map_mnt,
          umountTargets_map_probe, umountTargets_map_umnt, umountTargets_reverse_map_umnt]

/-- C4 counterexample: in the concrete run where the python_runtime probe
    raises, only the first three probes execute, the exception escapes
    run_all instead of becoming a skipped/error entry, and the remaining
    eight probes of the battery never run. -/
theorem probe_exception_aborts_battery_cex :
    probeTargets (runAll [true, true, true, true] (fun n => n == "python_runtime")).events
        = ["structure", "diskspace", "python_runtime"]
    ∧ (runAll [true, true, true, true] (fun n => n == "python_runtime")).escaped = true
    ∧ probeTargets (runAll [true, true, true, true] (fun n => n == "python_runtime")).events
        ≠ probeNames := by
  decide

/-- C4 amended: run_all has no per-probe exception handler, so the probes
    executed are exactly those up to and including the first raising probe,
    a raised exception propagates out of run_all, and mount teardown still
    occurs on the reversed list of successfully acquired mounts. -/
theorem probe_exception_propagation (ok : List Bool) (raises : String → Bool) :
    probeTargets (runAll ok raises).events
      = probeNames.takeWhile (fun n => !raises n)
        ++ (probeNames.dropWhile (fun n => !raises n)).take 1
    ∧ (runAll ok raises).escaped = probeNames.any raises
    ∧ umountTargets (runAll ok raises).events = (setupDid ok).reverse := by
  refine ⟨?_, ?_, (validation_mount_symmetry ok raises).1⟩
  · simp [runAll, teardownEvents, probeTargets_append, probeTargets_map_mnt,
          probeTargets_map_umnt, probeTargets_map_probe, probeTargets_reverse_map_umnt,
          probeTargets_take_map_probe, probeTargets_takeWhile_map_probe,
          (runProbeSeq_spec raises probeNames).1]
  · simp [runAll, (runProbeSeq_spec raises probeNames).2]

/-- C6: evaluation of the smoke-test's exit policy at the failing input —
    strict mode enabled, feature flag disabled.  The source returns exit
    code 0 (qemu_test.py line 216 returns before the strict check), though
    the claim and the module's own docstring say any non-passed outcome,
    including skipped-because-disabled, must exit nonzero in strict mode. -/
theorem qemu_strict_disabled_exits_zero :
    qemuTestMain { enable := false, strict := true, qemuBinFound := true,
                   kernelFound := true, runStatus := QStatus.failed } = 0 := by
  decide

/-- C9: the orchestrator's checkpoint(stage) helper and detect_rootfs's
    write_checkpoint(stage) replace the whole checkpoint file with an
    object holding only stage and ts — whatever meta the previous file
    held, the persisted file records no meta mapping at all. -/
theorem whole_file_checkpoint_discards_meta (prev : Option CPFile) (stage ts k : String) :
    (orchWriteCheckpoint prev stage ts).meta = none
    ∧ metaGet (orchWriteCheckpoint prev stage ts) k = none
    ∧ (orchWriteCheckpoint prev stage ts).stage = stage
    ∧ (detectWriteCheckpoint prev stage ts).meta = none
    ∧ metaGet (detectWriteCheckpoint prev stage ts) k = none
    ∧ (detectWriteCheckpoint prev stage ts).stage = stage :=
  ⟨rfl, rfl, rfl, rfl, rfl, rfl⟩

/-- Whether a phase occurs in a phase trace. -/
def hasPhase (ps : List Phase) (p : Phase) : Bool :=
  ps.any (fun q => q == p)

/-- Concrete environment for claim C5: the primary extractor fails, binwalk
    locates an offset, the sub-region classifies as a zstd stream, the
    decompression leaves a .dec file, but the decompressed content would
    not recursively yield a usable rootfs tree. -/
def c5env : ExtractEnv :=
  { unsquashRc := 1, permWarnInStderr := false, createdFilesInStdout := false
  , binwalkRaises := false, binwalkOffset := some 64
  , cpioPassRaises := false, cpioRootfsExists := false, ddRaises := false
  , fileTypeOut := "zstd compressed data", nestedUnsquashRc := 1
  , guestmountRc := 0, cpioUnpackRc := 0
  , decExists := true, decRecursiveUsable := false }

/-- Concrete environment for claim C10: the sub-region classifies as ext4
    and the guestmount invocation exits 1. -/
def c10env : ExtractEnv :=
  { unsquashRc := 1, permWarnInStderr := false, createdFilesInStdout := false
  , binwalkRaises := false, binwalkOffset := some 128
  , cpioPassRaises := false, cpioRootfsExists := false, ddRaises := false
  , fileTypeOut := "Linux rev 1.0 ext4 filesystem data", nestedUnsquashRc := 1
  , guestmountRc := 1, cpioUnpackRc := 1
  , decExists := false, decRecursiveUsable := false }

theorem fallbackExtractT_fst (e : ExtractEnv) :
    (fallbackExtractT e).1 = (if reachesInspect e then inspectDispatch e else false) := by
  unfold fallbackExtractT reachesInspect
  cases h : (if e.binwalkRaises then none else e.binwalkOffset) with
  | none =>
    cases hc : e.cpioPassRaises <;> cases hr : e.cpioRootfsExists <;> simp [hc, hr]
  | some off =>
    cases hd : e.ddRaises <;> simp [hd]

theorem tryExtractRootfs_of_primary_fail (e : ExtractEnv) (h : primaryPass e = false) :
    tryExtractRootfs e = (if reachesInspect e then inspectDispatch e else false) := by
  unfold primaryPass at h
  rw [Bool.or_eq_false_iff] at h
  rw [tryExtractRootfs, tryExtractRootfsT]
  simp only [h.1, h.2, Bool.false_eq_true, if_false]
  exact fallbackExtractT_fst e

/-- C5 counterexample: a concrete environment whose sub-region classifies
    as a compressed stream, whose decompression leaves a .dec scratch file,
    and whose decompressed content would NOT recursively classify to a
    usable rootfs tree — the source still reports extraction success, so
    the claimed re-classification recursion does not exist. -/
theorem compressed_recursion_cex :
    tryExtractRootfs c5env = true
    ∧ compressedBranchSpec c5env = false
    ∧ classifyFileType c5env.fileTypeOut = FtVerdict.compressed := by
  decide

/-- C5 amended: when the classified sub-region's file type is compressed
    (zstd, lz4 or xz), the cascade runs the decompression pipeline and
    reports success exactly when the decompressed scratch file exists; it
    performs no re-classification and no recursion on the decompressed
    stream. -/
theorem compressed_branch_no_recursion (e : ExtractEnv)
    (h1 : primaryPass e = false) (h2 : reachesInspect e = true)
    (h3 : classifyFileType e.fileTypeOut = FtVerdict.compressed) :
    tryExtractRootfs e = e.decExists := by
  rw [tryExtractRootfs_of_primary_fail e h1, h2]
  simp [inspectDispatch, h3]

/-- C5 witness: the amended theorem applied at the concrete compressed
    environment. -/
theorem compressed_branch_no_recursion_witness :
    (primaryPass c5env = false ∧ reachesInspect c5env = true
      ∧ classifyFileType c5env.fileTypeOut = FtVerdict.compressed)
    ∧ tryExtractRootfs c5env = c5env.decExists :=
  ⟨⟨by decide, by decide, by decide⟩,
   compressed_branch_no_recursion c5env (by decide) (by decide) (by decide)⟩

theorem fallback_any_sigScan (e : ExtractEnv) :
    ((fallbackExtractT e).2.any (fun q => q == Phase.signatureScan)) = true := by
  unfold fallbackExtractT
  cases h : (if e.binwalkRaises then none else e.binwalkOffset) with
  | none =>
    cases hc : e.cpioPassRaises <;> cases hr : e.cpioRootfsExists <;> simp [hc, hr]
  | some off =>
    cases hd : e.ddRaises <;> simp [hd]

/-- C8: the first classification step passes exactly under the spec's dual
    condition — exit code zero, or a nonzero exit whose stderr reports the
    permission-class warning while stdout carries the files-created marker;
    a pass returns success without the signature scan, and any other
    nonzero exit falls through to the signature-scan fallback. -/
theorem classifier_primary_dual_condition (e : ExtractEnv) :
    hasPhase (tryExtractRootfsT e).2 Phase.signatureScan = !(primaryPassSpec e)
    ∧ (tryExtractRootfsT e).1 = (primaryPassSpec e || (fallbackExtractT e).1) := by
  cases h0 : (e.unsquashRc == 0) with
  | true => simp [tryExtractRootfsT, primaryPassSpec, h0, hasPhase]
  | false =>
    cases hp : e.permWarnInStderr <;> cases hc : e.createdFilesInStdout <;>
      simp [tryExtractRootfsT, primaryPassSpec, h0, hp, hc, hasPhase, bne,
            fallback_any_sigScan e]

/-- C10: for every environment that reaches the file-type dispatch with an
    ext4 or cpio classification, try_extract_rootfs returns True — the
    guestmount / cpio unpack exit statuses (guestmountRc, cpioUnpackRc) are
    never consulted, so a failing tool invocation still reports success. -/
theorem ext4_cpio_ignore_tool_status (e : ExtractEnv)
    (h1 : primaryPass e = false) (h2 : reachesInspect e = true)
    (h3 : classifyFileType e.fileTypeOut = FtVerdict.ext4fs
          ∨ classifyFileType e.fileTypeOut = FtVerdict.cpioArc) :
    tryExtractRootfs e = true := by
  rw [tryExtractRootfs_of_primary_fail e h1, h2]
  rcases h3 with h3 | h3 <;> simp [inspectDispatch, h3]

/-- C10 witness: the theorem applied at a concrete ext4 environment whose
    guestmount invocation fails (rc 1) yet extraction reports success. -/
theorem ext4_cpio_ignore_tool_status_witness :
    (primaryPass c10env = false ∧ reachesInspect c10env = true
      ∧ classifyFileType c10env.fileTypeOut = FtVerdict.ext4fs
      ∧ c10env.guestmountRc = 1)
    ∧ tryExtractRootfs c10env = true :=
  ⟨⟨by decide, by decide, by decide, by decide⟩,
   ext4_cpio_ignore_tool_status c10env (by decide) (by decide) (Or.inl (by decide))⟩

-- ==========================================================================
-- Supporting lemmas: Python dict semantics for claim C7
-- ==========================================================================

/-- First-some choice on options (Python: later dict layers shadow earlier). -/
def optOr (a b : Option String) : Option String :=
  match a with
  | some v => some v
  | none => b

theorem dictGet_dictSet (d : List (String × String)) (k v k' : String) :
    dictGet (dictSet d k v) k' = if k' = k then some v else dictGet d k' := by
  induction d with
  | nil =>
    by_cases h : k' = k
    · subst h; simp [dictSet, dictGet]
    · simp [dictSet, dictGet, h, Ne.symm h]
  | cons p rest ih =>
    obtain ⟨a, b⟩ := p
    by_cases hak : a = k
    · subst hak
      by_cases hk : k' = a
      · subst hk; simp [dictSet, dictGet]
      · simp [dictSet, dictGet, hk, Ne.symm hk]
    · by_cases hk : k' = k
      · subst hk
        simp [dictSet, dictGet, hak, Ne.symm hak, ih]
      · simp [dictSet, dictGet, hak, hk, ih]

theorem dictGet_append (a b : List (String × String)) (k : String) :
    dictGet (a ++ b) k = optOr (dictGet a k) (dictGet b k) := by
  induction a with
  | nil => simp [dictGet, optOr]
  | cons p rest ih =>
    by_cases h : p.1 = k
    · simp [dictGet, h, optOr]
    · simp [dictGet, h, ih]

theorem dictGet_dictUpdate (p : List (String × String)) (d : List (String × String))
    (k : String) :
    dictGet (dictUpdate d p) k = optOr (dictGet p.reverse k) (dictGet d k) := by
  induction p generalizing d with
  | nil => simp [dictUpdate, dictGet, optOr]
  | cons kv rest ih =>
    rw [show dictUpdate d (kv :: rest) = dictUpdate (dictSet d kv.1 kv.2) rest from rfl]
    rw [ih, dictGet_dictSet]
    rw [show (kv :: rest).reverse = rest.reverse ++ [kv] from by simp]
    rw [dictGet_append]
    by_cases h : k = kv.1
    · cases hr : dictGet rest.reverse k <;> simp [optOr, dictGet, h, hr]
    · cases hr : dictGet rest.reverse k <;>
        simp [optOr, dictGet, h, hr, Ne.symm h]

theorem dictGet_eq_none_of_not_mem (d : List (String × String)) (k : String)
    (h : k ∉ d.map Prod.fst) : dictGet d k = none := by
  induction d with
  | nil => rfl
  | cons p rest ih =>
    simp only [List.map_cons, List.mem_cons] at h
    push_neg at h
    simp [dictGet, Ne.symm h.1, ih h.2]

theorem dictGet_reverse_of_nodup (p : List (String × String)) (k : String)
    (h : (p.map Prod.fst).Nodup) : dictGet p.reverse k = dictGet p k := by
  induction p with
  | nil => rfl
  | cons kv rest ih =>
    simp only [List.map_cons, List.nodup_cons] at h
    rw [show (kv :: rest).reverse = rest.reverse ++ [kv] from by simp, dictGet_append]
    by_cases hk : k = kv.1
    · subst hk
      rw [dictGet_eq_none_of_not_mem rest.reverse _ (by simpa using h.1)]
      simp [optOr, dictGet]
    · rw [ih h.2]
      cases hr : dictGet rest k <;>
        simp [optOr, dictGet, hr, Ne.symm hk]

theorem stage_done_stage (file : Option CPFile) (sid : String)
    (kwargs : List (String × String)) :
    (stage_done file sid kwargs).stage = sid := by
  by_cases h : kwargs.isEmpty <;> simp [stage_done, h]

theorem stage_done_meta (file : Option CPFile) (sid : String)
    (kwargs : List (String × String)) (k : String) :
    metaGet (stage_done file sid kwargs) k
      = optOr (dictGet kwargs.reverse k) (metaGet (get_checkpoint file) k) := by
  by_cases h : kwargs.isEmpty
  · rw [List.isEmpty_iff] at h
    subst h
    rfl
  · have h' : kwargs.isEmpty = false := by simpa using h
    simp only [stage_done, h', Bool.false_eq_true, if_false]
    cases hm : (get_checkpoint file).meta with
    | none => simp [metaGet, hm, dictGet_dictUpdate, dictGet]
    | some d => simp [metaGet, hm, dictGet_dictUpdate]

/-- C7: calling the checkpoint store's advance operation (stage_done) twice
    with the same stage identifier persists a checkpoint whose stage equals
    the identifier and whose meta maps every key to its binding in the
    second patch when present, else its binding in the first — i.e. the
    union of two disjoint patches, with the later call winning on a shared
    key. -/
theorem stage_done_twice_merge (sid : String) (p1 p2 : List (String × String))
    (k : String) (h1 : (p1.map Prod.fst).Nodup) (h2 : (p2.map Prod.fst).Nodup) :
    (stage_done (some (stage_done none sid p1)) sid p2).stage = sid
    ∧ metaGet (stage_done (some (stage_done none sid p1)) sid p2) k
        = optOr (dictGet p2 k) (dictGet p1 k) := by
  refine ⟨stage_done_stage _ _ _, ?_⟩
  rw [stage_done_meta]
  rw [show get_checkpoint (some (stage_done none sid p1)) = stage_done none sid p1 from rfl]
  rw [stage_done_meta]
  rw [dictGet_reverse_of_nodup p2 k h2, dictGet_reverse_of_nodup p1 k h1]
  rw [show metaGet (get_checkpoint none) k = none from rfl]
  cases hg2 : dictGet p2 k <;> cases hg1 : dictGet p1 k <;> simp [optOr]

/-- C7 witness: the merge theorem applied at stage repack_fw with the
    concrete patches [(a,1),(c,3)] then [(a,2),(b,4)] at key a. -/
theorem stage_done_twice_merge_witness :
    (([("a", "1"), ("c", "3")].map Prod.fst).Nodup
      ∧ ([("a", "2"), ("b", "4")].map Prod.fst).Nodup)
    ∧ ((stage_done (some (stage_done none "repack_fw" [("a", "1"), ("c", "3")]))
          "repack_fw" [("a", "2"), ("b", "4")]).stage = "repack_fw"
       ∧ metaGet (stage_done (some (stage_done none "repack_fw" [("a", "1"), ("c", "3")]))
            "repack_fw" [("a", "2"), ("b", "4")]) "a"
          = optOr (dictGet [("a", "2"), ("b", "4")] "a")
              (dictGet [("a", "1"), ("c", "3")] "a")) :=
  ⟨⟨by decide, by decide⟩,
   stage_done_twice_merge "repack_fw" [("a", "1"), ("c", "3")] [("a", "2"), ("b", "4")]
     "a" (by decide) (by decide)⟩
